import Mathlib

/-!
Verification of the RXMesh dynamic-mesh core: a shallow embedding of the
patch data model, the four validator consistency checks, the host
reconciliation routine, and the Bitmask primitive, together with theorems
settling the specification claims about them.

Conventions of the embedding:
- device/host arrays are modelled as total functions from indices; the code
  only ever reads the meaningful region of each array, so entries beyond it
  are irrelevant (freshly allocated memory is modelled as zero-filled);
- machine integers are modelled as Nat (local indices are uint16, patch ids
  are uint32 in the source; no arithmetic in the modelled code overflows);
- bitmasks attached to a patch are modelled as the Boolean value of each bit;
  the word-level Bitmask primitive itself is modelled at word granularity;
- the CUDA kernels are data-parallel loops whose only shared write is an
  atomic counter increment; their net effect is the sum, over all loop
  indices, of each iteration's contribution, which is how they are embedded.
-/

namespace rxmesh

/-- Modelled from the spec: an LP pair encodes (local index in owner patch,
owner-patch-stash-slot) (spec section 3). The bit-packing internals live in
lp_pair.cuh which is not among the given sources, so the pair is modelled
directly as its two decoded fields. -/
structure LPPair where
  local_id_in_owner_patch : Nat
  stash_slot : Nat
deriving DecidableEq

/-- Per-patch aggregate as read by the validator kernels: counts, the
edge-to-vertex and face-to-edge topology arrays (flattened, so entry
2*e+k is endpoint k of edge e and entry 3*f+k is the packed edge k of
face f), the active and owned bitmasks (one Boolean per bit), the three
LP find functions and the patch stash. -/
structure PatchInfo where
  num_vertices : Nat
  num_edges : Nat
  num_faces : Nat
  ev : Nat → Nat
  fe : Nat → Nat
  active_mask_v : Nat → Bool
  active_mask_e : Nat → Bool
  active_mask_f : Nat → Bool
  owned_mask_v : Nat → Bool
  owned_mask_e : Nat → Bool
  owned_mask_f : Nat → Bool
  lp_v : Nat → LPPair
  lp_e : Nat → LPPair
  lp_f : Nat → LPPair
  patch_stash : Nat → Nat

/-- Modelled from the spec: is_deleted from bitmask_util.h (not among the
given sources) tests the active mask, where a zero bit means the element is
tombstoned/deleted (spec section 3). -/
def is_deleted (i : Nat) (active_mask : Nat → Bool) : Bool :=
  !(active_mask i)

/-- Modelled from the spec: is_owned from bitmask_util.h (not among the given
sources) tests the owned mask, where a set bit means this patch owns the
element (spec section 3). -/
def is_owned (i : Nat) (owned_mask : Nat → Bool) : Bool :=
  owned_mask i

/-- Modelled from the spec: Context::unpack_edge_dir (context.h is not among
the given sources) splits a packed fe entry into the local edge index and the
direction bit; the direction bit is the least significant bit, which the
check_ribbon_edges kernel corroborates by dropping it with a right shift. -/
def unpack_edge_dir (x : Nat) : Nat × Nat :=
  (x / 2, x % 2)

/-- PatchStash::get_patch: resolve the stash slot stored in an LP pair to the
owning patch id. -/
def get_patch (pi : PatchInfo) (pr : LPPair) : Nat :=
  pi.patch_stash pr.stash_slot

/-- Mesh Context: global element counts plus the per-patch array. -/
structure Context where
  m_num_patches : Nat
  m_num_vertices : Nat
  m_num_edges : Nat
  m_num_faces : Nat
  m_patches_info : Nat → PatchInfo

/-- Contribution of edge e to the error counter of detail::check_uniqueness:
a non-deleted edge increments once if an endpoint is out of range or the two
endpoints coincide, and once more if an endpoint is deleted. -/
def edge_uniqueness_count (pi : PatchInfo) (e : Nat) : Nat :=
  let v0 := pi.ev (2 * e)
  let v1 := pi.ev (2 * e + 1)
  if is_deleted e pi.active_mask_e then 0
  else
    (if pi.num_vertices ≤ v0 ∨ pi.num_vertices ≤ v1 ∨ v0 = v1 then 1 else 0) +
    (if is_deleted v0 pi.active_mask_v ∨ is_deleted v1 pi.active_mask_v then 1
     else 0)

/-- Contribution of face f to the error counter of detail::check_uniqueness:
a non-deleted face increments once for out-of-range or non-distinct edges,
once for a deleted edge, once for out-of-range or non-distinct derived
vertices, and once for a deleted derived vertex. -/
def face_uniqueness_count (pi : PatchInfo) (f : Nat) : Nat :=
  if is_deleted f pi.active_mask_f then 0
  else
    let e0 := (unpack_edge_dir (pi.fe (3 * f))).1
    let d0 := (unpack_edge_dir (pi.fe (3 * f))).2
    let e1 := (unpack_edge_dir (pi.fe (3 * f + 1))).1
    let d1 := (unpack_edge_dir (pi.fe (3 * f + 1))).2
    let e2 := (unpack_edge_dir (pi.fe (3 * f + 2))).1
    let d2 := (unpack_edge_dir (pi.fe (3 * f + 2))).2
    let v0 := pi.ev (2 * e0 + d0)
    let v1 := pi.ev (2 * e1 + d1)
    let v2 := pi.ev (2 * e2 + d2)
    (if pi.num_edges ≤ e0 ∨ pi.num_edges ≤ e1 ∨ pi.num_edges ≤ e2 ∨
        e0 = e1 ∨ e0 = e2 ∨ e1 = e2 then 1 else 0) +
    (if is_deleted e0 pi.active_mask_e ∨ is_deleted e1 pi.active_mask_e ∨
        is_deleted e2 pi.active_mask_e then 1 else 0) +
    (if pi.num_vertices ≤ v0 ∨ pi.num_vertices ≤ v1 ∨ pi.num_vertices ≤ v2 ∨
        v0 = v1 ∨ v0 = v2 ∨ v1 = v2 then 1 else 0) +
    (if is_deleted v0 pi.active_mask_v ∨ is_deleted v1 pi.active_mask_v ∨
        is_deleted v2 pi.active_mask_v then 1 else 0)

/-- Error-counter total of detail::check_uniqueness for one patch (the block
assigned to that patch). -/
def check_uniqueness_count (pi : PatchInfo) : Nat :=
  (∑ e ∈ Finset.range pi.num_edges, edge_uniqueness_count pi e) +
  (∑ f ∈ Finset.range pi.num_faces, face_uniqueness_count pi f)

/-- Error-counter total of detail::check_uniqueness over all patches. -/
def check_uniqueness_total (ctx : Context) : Nat :=
  ∑ p ∈ Finset.range ctx.m_num_patches,
    check_uniqueness_count (ctx.m_patches_info p)

/-- Specification-side condition: edge e is flagged by the uniqueness check
(out-of-range endpoint, coincident endpoints, or deleted endpoint of a
non-deleted edge). -/
def edge_uniqueness_bad (pi : PatchInfo) (e : Nat) : Prop :=
  is_deleted e pi.active_mask_e = false ∧
  (pi.num_vertices ≤ pi.ev (2 * e) ∨ pi.num_vertices ≤ pi.ev (2 * e + 1) ∨
   pi.ev (2 * e) = pi.ev (2 * e + 1) ∨
   is_deleted (pi.ev (2 * e)) pi.active_mask_v = true ∨
   is_deleted (pi.ev (2 * e + 1)) pi.active_mask_v = true)

instance (pi : PatchInfo) (e : Nat) : Decidable (edge_uniqueness_bad pi e) := by
  unfold edge_uniqueness_bad; infer_instance

/-- Specification-side condition: face f is flagged by the uniqueness check
(out-of-range, non-distinct or deleted edges, or out-of-range, non-distinct
or deleted derived vertices, of a non-deleted face). -/
def face_uniqueness_bad (pi : PatchInfo) (f : Nat) : Prop :=
  is_deleted f pi.active_mask_f = false ∧
  (let e0 := (unpack_edge_dir (pi.fe (3 * f))).1
   let d0 := (unpack_edge_dir (pi.fe (3 * f))).2
   let e1 := (unpack_edge_dir (pi.fe (3 * f + 1))).1
   let d1 := (unpack_edge_dir (pi.fe (3 * f + 1))).2
   let e2 := (unpack_edge_dir (pi.fe (3 * f + 2))).1
   let d2 := (unpack_edge_dir (pi.fe (3 * f + 2))).2
   let v0 := pi.ev (2 * e0 + d0)
   let v1 := pi.ev (2 * e1 + d1)
   let v2 := pi.ev (2 * e2 + d2)
   (pi.num_edges ≤ e0 ∨ pi.num_edges ≤ e1 ∨ pi.num_edges ≤ e2 ∨
    e0 = e1 ∨ e0 = e2 ∨ e1 = e2) ∨
   (is_deleted e0 pi.active_mask_e = true ∨ is_deleted e1 pi.active_mask_e = true ∨
    is_deleted e2 pi.active_mask_e = true) ∨
   (pi.num_vertices ≤ v0 ∨ pi.num_vertices ≤ v1 ∨ pi.num_vertices ≤ v2 ∨
    v0 = v1 ∨ v0 = v2 ∨ v1 = v2) ∨
   (is_deleted v0 pi.active_mask_v = true ∨ is_deleted v1 pi.active_mask_v = true ∨
    is_deleted v2 pi.active_mask_v = true))

instance (pi : PatchInfo) (f : Nat) : Decidable (face_uniqueness_bad pi f) := by
  unfold face_uniqueness_bad; infer_instance

/-- Uniqueness-check failure condition exactly as C6 words it: some
non-deleted edge has coincident or non-active endpoints, or some non-deleted
face has non-distinct or non-active edges or derived vertices. Unlike the
kernel, this condition never looks at whether a stored index is in range. -/
def uniqueness_claimed_violation (pi : PatchInfo) : Prop :=
  (∃ e, e < pi.num_edges ∧ is_deleted e pi.active_mask_e = false ∧
    (pi.ev (2 * e) = pi.ev (2 * e + 1) ∨
     is_deleted (pi.ev (2 * e)) pi.active_mask_v = true ∨
     is_deleted (pi.ev (2 * e + 1)) pi.active_mask_v = true)) ∨
  (∃ f, f < pi.num_faces ∧ is_deleted f pi.active_mask_f = false ∧
    (let e0 := (unpack_edge_dir (pi.fe (3 * f))).1
     let d0 := (unpack_edge_dir (pi.fe (3 * f))).2
     let e1 := (unpack_edge_dir (pi.fe (3 * f + 1))).1
     let d1 := (unpack_edge_dir (pi.fe (3 * f + 1))).2
     let e2 := (unpack_edge_dir (pi.fe (3 * f + 2))).1
     let d2 := (unpack_edge_dir (pi.fe (3 * f + 2))).2
     let v0 := pi.ev (2 * e0 + d0)
     let v1 := pi.ev (2 * e1 + d1)
     let v2 := pi.ev (2 * e2 + d2)
     (e0 = e1 ∨ e0 = e2 ∨ e1 = e2) ∨
     (is_deleted e0 pi.active_mask_e = true ∨ is_deleted e1 pi.active_mask_e = true ∨
      is_deleted e2 pi.active_mask_e = true) ∨
     (v0 = v1 ∨ v0 = v2 ∨ v1 = v2) ∨
     (is_deleted v0 pi.active_mask_v = true ∨ is_deleted v1 pi.active_mask_v = true ∨
      is_deleted v2 pi.active_mask_v = true)))

instance (pi : PatchInfo) : Decidable (uniqueness_claimed_violation pi) := by
  unfold uniqueness_claimed_violation
  have : ∀ n (p : Nat → Prop) [DecidablePred p],
      Decidable (∃ i, i < n ∧ p i) := fun n p _ =>
    decidable_of_iff (∃ i ∈ Finset.range n, p i) (by simp [Finset.mem_range])
  exact @instDecidableOr _ _ (this _ _) (this _ _)

/-- Violation condition of the uniqueness check, as amended by C6: the
claimed condition plus the out-of-range clauses the kernel also flags. -/
def uniqueness_violation_spec (pi : PatchInfo) : Prop :=
  (∃ e, e < pi.num_edges ∧ edge_uniqueness_bad pi e) ∨
  (∃ f, f < pi.num_faces ∧ face_uniqueness_bad pi f)

instance (pi : PatchInfo) : Decidable (uniqueness_violation_spec pi) := by
  unfold uniqueness_violation_spec
  have : ∀ n (p : Nat → Prop) [DecidablePred p],
      Decidable (∃ i, i < n ∧ p i) := fun n p _ =>
    decidable_of_iff (∃ i ∈ Finset.range n, p i) (by simp [Finset.mem_range])
  exact @instDecidableOr _ _ (this _ _) (this _ _)

lemma sum_range_eq_zero_iff (n : Nat) (c : Nat → Nat) :
    (∑ i ∈ Finset.range n, c i) = 0 ↔ ∀ i, i < n → c i = 0 := by
  rw [Finset.sum_eq_zero_iff]
  constructor
  · intro h i hi
    exact h i (Finset.mem_range.mpr hi)
  · intro h i hi
    exact h i (Finset.mem_range.mp hi)

lemma ite_add_ne_zero_two (c1 c2 : Prop) [Decidable c1] [Decidable c2] :
    ((if c1 then 1 else 0) + (if c2 then 1 else 0) : Nat) ≠ 0 ↔ c1 ∨ c2 := by
  split_ifs <;> simp_all

lemma ite_add_ne_zero_four (c1 c2 c3 c4 : Prop)
    [Decidable c1] [Decidable c2] [Decidable c3] [Decidable c4] :
    ((if c1 then 1 else 0) + (if c2 then 1 else 0) + (if c3 then 1 else 0) +
      (if c4 then 1 else 0) : Nat) ≠ 0 ↔ c1 ∨ c2 ∨ c3 ∨ c4 := by
  split_ifs <;> simp_all

lemma edge_uniqueness_count_ne_zero (pi : PatchInfo) (e : Nat) :
    edge_uniqueness_count pi e ≠ 0 ↔ edge_uniqueness_bad pi e := by
  simp only [edge_uniqueness_count, edge_uniqueness_bad]
  by_cases h : is_deleted e pi.active_mask_e = true
  · simp [h]
  · rw [if_neg h, ite_add_ne_zero_two]
    simp only [Bool.not_eq_true] at h
    simp only [h, true_and]
    tauto

lemma face_uniqueness_count_ne_zero (pi : PatchInfo) (f : Nat) :
    face_uniqueness_count pi f ≠ 0 ↔ face_uniqueness_bad pi f := by
  simp only [face_uniqueness_count, face_uniqueness_bad]
  by_cases h : is_deleted f pi.active_mask_f = true
  · simp [h]
  · rw [if_neg h, ite_add_ne_zero_four]
    simp only [Bool.not_eq_true] at h
    simp only [h, true_and]

lemma check_uniqueness_count_eq_zero (pi : PatchInfo) :
    check_uniqueness_count pi = 0 ↔
      (∀ e, e < pi.num_edges → edge_uniqueness_count pi e = 0) ∧
      (∀ f, f < pi.num_faces → face_uniqueness_count pi f = 0) := by
  rw [check_uniqueness_count, Nat.add_eq_zero, sum_range_eq_zero_iff,
    sum_range_eq_zero_iff]

/-- C6 (amended): per patch, the uniqueness check reports a violation if and
only if some non-deleted edge has an out-of-range, coincident or deleted
endpoint, or some non-deleted face has an out-of-range, non-distinct or
deleted edge, or an out-of-range, non-distinct or deleted derived vertex;
deleted edges and faces are skipped entirely. (The amendment adds the
out-of-range clauses, which the claim's conditions omit.) -/
theorem check_uniqueness_characterization (pi : PatchInfo) :
    check_uniqueness_count pi ≠ 0 ↔ uniqueness_violation_spec pi := by
  rw [Ne, check_uniqueness_count_eq_zero, not_and_or, uniqueness_violation_spec]
  push_neg
  constructor
  · rintro (⟨e, he, hc⟩ | ⟨f, hf, hc⟩)
    · exact Or.inl ⟨e, he, (edge_uniqueness_count_ne_zero pi e).mp hc⟩
    · exact Or.inr ⟨f, hf, (face_uniqueness_count_ne_zero pi f).mp hc⟩
  · rintro (⟨e, he, hb⟩ | ⟨f, hf, hb⟩)
    · exact Or.inl ⟨e, he, (edge_uniqueness_count_ne_zero pi e).mpr hb⟩
    · exact Or.inr ⟨f, hf, (face_uniqueness_count_ne_zero pi f).mpr hb⟩

/-- A patch whose single live edge stores the out-of-range endpoints 5 and 6
while num_vertices is 2; all masks are fully set, so both endpoints are
distinct and read as active. -/
def pi_oor : PatchInfo where
  num_vertices := 2
  num_edges := 1
  num_faces := 0
  ev := fun i => i + 5
  fe := fun _ => 0
  active_mask_v := fun _ => true
  active_mask_e := fun _ => true
  active_mask_f := fun _ => true
  owned_mask_v := fun _ => true
  owned_mask_e := fun _ => true
  owned_mask_f := fun _ => true
  lp_v := fun _ => ⟨0, 0⟩
  lp_e := fun _ => ⟨0, 0⟩
  lp_f := fun _ => ⟨0, 0⟩
  patch_stash := fun _ => 0

/-- C6 counterexample: on the patch pi_oor the kernel's error counter is
nonzero, yet none of the conditions the claim enumerates (coincident
endpoints, deleted endpoints, non-distinct or deleted face edges or
vertices) holds, so the claimed "if and only if" is false on this input. -/
theorem check_uniqueness_claim_refuted :
    check_uniqueness_count pi_oor ≠ 0 ∧ ¬ uniqueness_claimed_violation pi_oor := by
  exact ⟨by decide, by decide⟩

/-- All topology indices stored by non-deleted elements of the patch are in
range: edge endpoints below num_vertices, face edges below num_edges, and
face-derived vertices below num_vertices. -/
def topology_in_range (pi : PatchInfo) : Prop :=
  (∀ e, e < pi.num_edges → is_deleted e pi.active_mask_e = false →
    pi.ev (2 * e) < pi.num_vertices ∧ pi.ev (2 * e + 1) < pi.num_vertices) ∧
  (∀ f, f < pi.num_faces → is_deleted f pi.active_mask_f = false →
    (unpack_edge_dir (pi.fe (3 * f))).1 < pi.num_edges ∧
    (unpack_edge_dir (pi.fe (3 * f + 1))).1 < pi.num_edges ∧
    (unpack_edge_dir (pi.fe (3 * f + 2))).1 < pi.num_edges ∧
    pi.ev (2 * (unpack_edge_dir (pi.fe (3 * f))).1 +
      (unpack_edge_dir (pi.fe (3 * f))).2) < pi.num_vertices ∧
    pi.ev (2 * (unpack_edge_dir (pi.fe (3 * f + 1))).1 +
      (unpack_edge_dir (pi.fe (3 * f + 1))).2) < pi.num_vertices ∧
    pi.ev (2 * (unpack_edge_dir (pi.fe (3 * f + 2))).1 +
      (unpack_edge_dir (pi.fe (3 * f + 2))).2) < pi.num_vertices)

/-- Some non-deleted element of the patch stores an out-of-range topology
index. -/
def out_of_range_exists (pi : PatchInfo) : Prop :=
  (∃ e, e < pi.num_edges ∧ is_deleted e pi.active_mask_e = false ∧
    (pi.num_vertices ≤ pi.ev (2 * e) ∨ pi.num_vertices ≤ pi.ev (2 * e + 1))) ∨
  (∃ f, f < pi.num_faces ∧ is_deleted f pi.active_mask_f = false ∧
    (pi.num_edges ≤ (unpack_edge_dir (pi.fe (3 * f))).1 ∨
     pi.num_edges ≤ (unpack_edge_dir (pi.fe (3 * f + 1))).1 ∨
     pi.num_edges ≤ (unpack_edge_dir (pi.fe (3 * f + 2))).1 ∨
     pi.num_vertices ≤ pi.ev (2 * (unpack_edge_dir (pi.fe (3 * f))).1 +
       (unpack_edge_dir (pi.fe (3 * f))).2) ∨
     pi.num_vertices ≤ pi.ev (2 * (unpack_edge_dir (pi.fe (3 * f + 1))).1 +
       (unpack_edge_dir (pi.fe (3 * f + 1))).2) ∨
     pi.num_vertices ≤ pi.ev (2 * (unpack_edge_dir (pi.fe (3 * f + 2))).1 +
       (unpack_edge_dir (pi.fe (3 * f + 2))).2)))

/-- C10: the uniqueness check also flags out-of-range indices, so a zero
error counter guarantees that every topology index stored by a non-deleted
element is in range; conversely a non-deleted element with an out-of-range
index forces a nonzero counter. -/
theorem check_uniqueness_range_guarantee (pi : PatchInfo) :
    (check_uniqueness_count pi = 0 → topology_in_range pi) ∧
    (out_of_range_exists pi → check_uniqueness_count pi ≠ 0) := by
  constructor
  · intro h
    obtain ⟨hE, hF⟩ := (check_uniqueness_count_eq_zero pi).mp h
    constructor
    · intro e he hdel
      have hb : ¬ edge_uniqueness_bad pi e := by
        rw [← edge_uniqueness_count_ne_zero]
        simp [hE e he]
      rw [edge_uniqueness_bad] at hb
      push_neg at hb
      have := hb hdel
      omega
    · intro f hf hdel
      have hb : ¬ face_uniqueness_bad pi f := by
        rw [← face_uniqueness_count_ne_zero]
        simp [hF f hf]
      simp only [face_uniqueness_bad] at hb
      push_neg at hb
      obtain ⟨h1, h2, h3, h4⟩ := hb hdel
      exact ⟨h1.1, h1.2.1, h1.2.2.1, h3.1, h3.2.1, h3.2.2.1⟩
  · intro hoor hz
    obtain ⟨hE, hF⟩ := (check_uniqueness_count_eq_zero pi).mp hz
    rcases hoor with ⟨e, he, hdel, hor⟩ | ⟨f, hf, hdel, hor⟩
    · have : edge_uniqueness_bad pi e := ⟨hdel, by tauto⟩
      exact (edge_uniqueness_count_ne_zero pi e).mpr this (hE e he)
    · have : face_uniqueness_bad pi f := ⟨hdel, by tauto⟩
      exact (face_uniqueness_count_ne_zero pi f).mpr this (hF f hf)

/-- Edge-to-vertex table of a single owned triangle: edges (0,1), (1,2),
(2,0), flattened. -/
def tri_ev : Nat → Nat := fun i => [0, 1, 1, 2, 2, 0].getD i 0

/-- Face-to-edge table of the triangle: the face uses edges 0, 1, 2, each
packed with direction bit 0. -/
def tri_fe : Nat → Nat := fun i => [0, 2, 4].getD i 0

/-- A fully owned, fully active triangle patch: 3 vertices, 3 edges, 1
face. -/
def tri_patch : PatchInfo where
  num_vertices := 3
  num_edges := 3
  num_faces := 1
  ev := tri_ev
  fe := tri_fe
  active_mask_v := fun _ => true
  active_mask_e := fun _ => true
  active_mask_f := fun _ => true
  owned_mask_v := fun _ => true
  owned_mask_e := fun _ => true
  owned_mask_f := fun _ => true
  lp_v := fun _ => ⟨0, 0⟩
  lp_e := fun _ => ⟨0, 0⟩
  lp_f := fun _ => ⟨0, 0⟩
  patch_stash := fun _ => 0

/-- C10 witness: on the concrete triangle patch the error counter is zero
and the range guarantee instantiates. -/
theorem check_uniqueness_range_guarantee_witness :
    check_uniqueness_count tri_patch = 0 ∧ topology_in_range tri_patch :=
  ⟨by decide, (check_uniqueness_range_guarantee tri_patch).1 (by decide)⟩

/-- Contribution of face f to the shared mark counter of edge e in
detail::check_ribbon_edges: a non-deleted owned face marks each of its three
fe entries (direction bit dropped by a right shift) whenever the marked edge
is owned. The kernel does the marking with an atomic add, so the counter
value is the sum of all contributions. -/
def ribbon_face_marks (pi : PatchInfo) (f e : Nat) : Nat :=
  if !(is_deleted f pi.active_mask_f) && is_owned f pi.owned_mask_f then
    (if pi.fe (3 * f) / 2 = e ∧
        is_owned (pi.fe (3 * f) / 2) pi.owned_mask_e = true then 1 else 0) +
    (if pi.fe (3 * f + 1) / 2 = e ∧
        is_owned (pi.fe (3 * f + 1) / 2) pi.owned_mask_e = true then 1 else 0) +
    (if pi.fe (3 * f + 2) / 2 = e ∧
        is_owned (pi.fe (3 * f + 2) / 2) pi.owned_mask_e = true then 1 else 0)
  else 0

/-- Value of s_mark_edges for edge e after the marking loop of
detail::check_ribbon_edges. -/
def ribbon_edge_mark_count (pi : PatchInfo) (e : Nat) : Nat :=
  ∑ f ∈ Finset.range pi.num_faces, ribbon_face_marks pi f e

/-- Final loop of detail::check_ribbon_edges: edge e increments the error
counter iff it is owned and its mark counter stayed zero. The active mask of
the edge is not consulted here. -/
def ribbon_edge_violation (pi : PatchInfo) (e : Nat) : Bool :=
  is_owned e pi.owned_mask_e && decide (ribbon_edge_mark_count pi e = 0)

/-- Error-counter total of detail::check_ribbon_edges for one patch. -/
def check_ribbon_edges_count (pi : PatchInfo) : Nat :=
  ∑ e ∈ Finset.range pi.num_edges,
    if ribbon_edge_violation pi e = true then 1 else 0

/-- Error-counter total of detail::check_ribbon_edges over all patches. -/
def check_ribbon_edges_total (ctx : Context) : Nat :=
  ∑ p ∈ Finset.range ctx.m_num_patches,
    check_ribbon_edges_count (ctx.m_patches_info p)

/-- Some owned, non-deleted face of the patch is incident to edge e through
one of its three fe slots. -/
def has_incident_owned_face (pi : PatchInfo) (e : Nat) : Prop :=
  ∃ f, f < pi.num_faces ∧ is_deleted f pi.active_mask_f = false ∧
    is_owned f pi.owned_mask_f = true ∧
    (pi.fe (3 * f) / 2 = e ∨ pi.fe (3 * f + 1) / 2 = e ∨
     pi.fe (3 * f + 2) / 2 = e)

instance (pi : PatchInfo) (e : Nat) :
    Decidable (has_incident_owned_face pi e) :=
  decidable_of_iff (∃ f ∈ Finset.range pi.num_faces,
      is_deleted f pi.active_mask_f = false ∧
      is_owned f pi.owned_mask_f = true ∧
      (pi.fe (3 * f) / 2 = e ∨ pi.fe (3 * f + 1) / 2 = e ∨
       pi.fe (3 * f + 2) / 2 = e))
    (by simp [has_incident_owned_face, Finset.mem_range])

/-- Violation condition of the ribbon-edge check exactly as C2 words it: the
edge is non-deleted and has no incident owned, non-deleted face; a deleted
edge is never flagged. -/
def ribbon_edge_claimed_violation (pi : PatchInfo) (e : Nat) : Prop :=
  is_deleted e pi.active_mask_e = false ∧ ¬ has_incident_owned_face pi e

instance (pi : PatchInfo) (e : Nat) :
    Decidable (ribbon_edge_claimed_violation pi e) := by
  unfold ribbon_edge_claimed_violation; infer_instance

lemma ribbon_face_marks_eq_zero (pi : PatchInfo) (f e : Nat)
    (ho : is_owned e pi.owned_mask_e = true) :
    ribbon_face_marks pi f e = 0 ↔
      ¬(is_deleted f pi.active_mask_f = false ∧
        is_owned f pi.owned_mask_f = true ∧
        (pi.fe (3 * f) / 2 = e ∨ pi.fe (3 * f + 1) / 2 = e ∨
         pi.fe (3 * f + 2) / 2 = e)) := by
  unfold ribbon_face_marks
  by_cases hf : (!(is_deleted f pi.active_mask_f) &&
      is_owned f pi.owned_mask_f) = true
  · rw [if_pos hf]
    rw [Bool.and_eq_true, Bool.not_eq_true'] at hf
    by_cases h1 : pi.fe (3 * f) / 2 = e <;>
      by_cases h2 : pi.fe (3 * f + 1) / 2 = e <;>
      by_cases h3 : pi.fe (3 * f + 2) / 2 = e <;>
      simp [h1, h2, h3, hf.1, hf.2, ho]
  · rw [if_neg hf]
    rw [Bool.and_eq_true, Bool.not_eq_true'] at hf
    simp only [not_and_or] at hf ⊢
    tauto

/-- C2 (amended): an edge increments the ribbon-edge error counter if and
only if it is owned and no owned, non-deleted face of the patch is incident
to it; the deleted status of the edge itself is never consulted, so an
owned, deleted edge with no incident owned live face is flagged as well. -/
theorem check_ribbon_edges_characterization (pi : PatchInfo) (e : Nat) :
    ribbon_edge_violation pi e = true ↔
      (is_owned e pi.owned_mask_e = true ∧ ¬ has_incident_owned_face pi e) := by
  unfold ribbon_edge_violation
  rw [Bool.and_eq_true, decide_eq_true_eq]
  constructor
  · rintro ⟨ho, hz⟩
    refine ⟨ho, ?_⟩
    rw [ribbon_edge_mark_count, sum_range_eq_zero_iff] at hz
    rintro ⟨f, hf, hdel, hown, hslot⟩
    exact ((ribbon_face_marks_eq_zero pi f e ho).mp (hz f hf))
      ⟨hdel, hown, hslot⟩
  · rintro ⟨ho, hni⟩
    refine ⟨ho, ?_⟩
    rw [ribbon_edge_mark_count, sum_range_eq_zero_iff]
    intro f hf
    rw [ribbon_face_marks_eq_zero pi f e ho]
    rintro ⟨hdel, hown, hslot⟩
    exact hni ⟨f, hf, hdel, hown, hslot⟩

/-- A patch holding a single edge that is owned but marked deleted, with no
faces at all. -/
def pi_dead_edge : PatchInfo where
  num_vertices := 2
  num_edges := 1
  num_faces := 0
  ev := tri_ev
  fe := fun _ => 0
  active_mask_v := fun _ => true
  active_mask_e := fun _ => false
  active_mask_f := fun _ => true
  owned_mask_v := fun _ => true
  owned_mask_e := fun _ => true
  owned_mask_f := fun _ => true
  lp_v := fun _ => ⟨0, 0⟩
  lp_e := fun _ => ⟨0, 0⟩
  lp_f := fun _ => ⟨0, 0⟩
  patch_stash := fun _ => 0

/-- C2 counterexample: in pi_dead_edge the single edge is deleted, so by the
claim it must be skipped and never flagged, yet the kernel flags it (it is
owned with a zero mark counter), so the claimed "if and only if" is false on
this input. -/
theorem check_ribbon_edges_claim_refuted :
    ribbon_edge_violation pi_dead_edge 0 = true ∧
      ¬ ribbon_edge_claimed_violation pi_dead_edge 0 := by
  exact ⟨by decide, by decide⟩

/-- Modelled from the spec: the number of elements of a patch whose owned
bit is set; PatchInfo::get_num_owned_vertices and the for_each-based count
of detail::calc_num_elements (for_each_dispatcher.cuh and patch_info.h are
not among the given sources) both count exactly the owned elements (spec
sections 4.3 and 4.4). -/
def num_owned_in (n : Nat) (owned : Nat → Bool) : Nat :=
  ∑ i ∈ Finset.range n, if owned i then 1 else 0

/-- Modelled from the spec: the vertex total accumulated by
detail::calc_num_elements over all patches. -/
def calc_num_elements_v (ctx : Context) : Nat :=
  ∑ p ∈ Finset.range ctx.m_num_patches,
    num_owned_in (ctx.m_patches_info p).num_vertices
      (ctx.m_patches_info p).owned_mask_v

/-- Modelled from the spec: the edge total accumulated by
detail::calc_num_elements over all patches. -/
def calc_num_elements_e (ctx : Context) : Nat :=
  ∑ p ∈ Finset.range ctx.m_num_patches,
    num_owned_in (ctx.m_patches_info p).num_edges
      (ctx.m_patches_info p).owned_mask_e

/-- Modelled from the spec: the face total accumulated by
detail::calc_num_elements over all patches. -/
def calc_num_elements_f (ctx : Context) : Nat :=
  ∑ p ∈ Finset.range ctx.m_num_patches,
    num_owned_in (ctx.m_patches_info p).num_faces
      (ctx.m_patches_info p).owned_mask_f

/-- The check_num_mesh_elements lambda of RXMeshDynamic::validate: compare
the three accumulated totals against the global counts of the Mesh Context
and fail on any mismatch. -/
def check_num_mesh_elements (ctx : Context) : Bool :=
  if ctx.m_num_vertices ≠ calc_num_elements_v ctx ∨
     ctx.m_num_edges ≠ calc_num_elements_e ctx ∨
     ctx.m_num_faces ≠ calc_num_elements_f ctx then false
  else true

lemma num_owned_in_eq_card (n : Nat) (owned : Nat → Bool) :
    num_owned_in n owned =
      ((Finset.range n).filter (fun i => owned i = true)).card := by
  rw [num_owned_in, Finset.card_filter]

/-- C7: the element-count check succeeds if and only if, for each element
type, the sum over all patches of the number of elements with the owned bit
set equals the corresponding global count of the Mesh Context; a mismatch in
any of the three types makes it fail. -/
theorem check_num_mesh_elements_iff (ctx : Context) :
    check_num_mesh_elements ctx = true ↔
      ((∑ p ∈ Finset.range ctx.m_num_patches,
          ((Finset.range (ctx.m_patches_info p).num_vertices).filter
            (fun i => (ctx.m_patches_info p).owned_mask_v i = true)).card) =
        ctx.m_num_vertices ∧
       (∑ p ∈ Finset.range ctx.m_num_patches,
          ((Finset.range (ctx.m_patches_info p).num_edges).filter
            (fun i => (ctx.m_patches_info p).owned_mask_e i = true)).card) =
        ctx.m_num_edges ∧
       (∑ p ∈ Finset.range ctx.m_num_patches,
          ((Finset.range (ctx.m_patches_info p).num_faces).filter
            (fun i => (ctx.m_patches_info p).owned_mask_f i = true)).card) =
        ctx.m_num_faces) := by
  unfold check_num_mesh_elements
  simp only [calc_num_elements_v, calc_num_elements_e, calc_num_elements_f,
    num_owned_in_eq_card]
  split_ifs with h
  · refine iff_of_false (by simp) (fun hc => ?_)
    rcases h with h | h | h
    · exact h hc.1.symm
    · exact h hc.2.1.symm
    · exact h hc.2.2.symm
  · push_neg at h
    exact iff_of_true rfl ⟨h.1.symm, h.2.1.symm, h.2.2.symm⟩

/-- The get_owned_e lambda of detail::check_not_owned: resolve a local edge
index to the pair (owner-local index, owner patch id); an owned edge stays
in place with the ambient patch id. -/
def get_owned_e (pi : PatchInfo) (e p : Nat) : Nat × Nat :=
  if is_owned e pi.owned_mask_e then (e, p)
  else ((pi.lp_e e).local_id_in_owner_patch, get_patch pi (pi.lp_e e))

/-- The get_owned_v lambda of detail::check_not_owned, analogous for
vertices. -/
def get_owned_v (pi : PatchInfo) (v p : Nat) : Nat × Nat :=
  if is_owned v pi.owned_mask_v then (v, p)
  else ((pi.lp_v v).local_id_in_owner_patch, get_patch pi (pi.lp_v v))

/-- Contribution of face f of patch patch_id to the error counter of
detail::check_not_owned: a non-deleted, not-owned face increments once when
the owner patch does not have the owned bit set for the LP-resolved index,
once more when the face is deleted in the owner patch, and otherwise once
when the owner-resolved (edge, direction, patch) triples of its three edges
differ in any component from the triples the owner patch records. -/
def check_not_owned_face_count (ctx : Context) (patch_id f : Nat) : Nat :=
  let pi := ctx.m_patches_info patch_id
  if is_deleted f pi.active_mask_f || is_owned f pi.owned_mask_f then 0
  else
    let u0 := unpack_edge_dir (pi.fe (3 * f))
    let u1 := unpack_edge_dir (pi.fe (3 * f + 1))
    let u2 := unpack_edge_dir (pi.fe (3 * f + 2))
    let a0 := get_owned_e pi u0.1 patch_id
    let a1 := get_owned_e pi u1.1 patch_id
    let a2 := get_owned_e pi u2.1 patch_id
    let f_pair := pi.lp_f f
    let f_owned := f_pair.local_id_in_owner_patch
    let f_patch := get_patch pi f_pair
    let owner := ctx.m_patches_info f_patch
    if is_deleted f_owned owner.active_mask_f then
      (if is_owned f_owned owner.owned_mask_f then 0 else 1) + 1
    else
      let w0 := unpack_edge_dir (owner.fe (3 * f_owned))
      let w1 := unpack_edge_dir (owner.fe (3 * f_owned + 1))
      let w2 := unpack_edge_dir (owner.fe (3 * f_owned + 2))
      let b0 := get_owned_e owner w0.1 f_patch
      let b1 := get_owned_e owner w1.1 f_patch
      let b2 := get_owned_e owner w2.1 f_patch
      (if is_owned f_owned owner.owned_mask_f then 0 else 1) +
        (if a0.1 ≠ b0.1 ∨ u0.2 ≠ w0.2 ∨ a0.2 ≠ b0.2 ∨
            a1.1 ≠ b1.1 ∨ u1.2 ≠ w1.2 ∨ a1.2 ≠ b1.2 ∨
            a2.1 ≠ b2.1 ∨ u2.2 ≠ w2.2 ∨ a2.2 ≠ b2.2 then 1 else 0)

/-- Contribution of edge e of patch patch_id to the error counter of
detail::check_not_owned, analogous for the edge's two vertices (no direction
tags are involved for vertices). -/
def check_not_owned_edge_count (ctx : Context) (patch_id e : Nat) : Nat :=
  let pi := ctx.m_patches_info patch_id
  if is_deleted e pi.active_mask_e || is_owned e pi.owned_mask_e then 0
  else
    let a0 := get_owned_v pi (pi.ev (2 * e)) patch_id
    let a1 := get_owned_v pi (pi.ev (2 * e + 1)) patch_id
    let e_pair := pi.lp_e e
    let e_owned := e_pair.local_id_in_owner_patch
    let e_patch := get_patch pi e_pair
    let owner := ctx.m_patches_info e_patch
    if is_deleted e_owned owner.active_mask_e then
      (if is_owned e_owned owner.owned_mask_e then 0 else 1) + 1
    else
      let b0 := get_owned_v owner (owner.ev (2 * e_owned)) e_patch
      let b1 := get_owned_v owner (owner.ev (2 * e_owned + 1)) e_patch
      (if is_owned e_owned owner.owned_mask_e then 0 else 1) +
        (if a0.1 ≠ b0.1 ∨ a0.2 ≠ b0.2 ∨ a1.1 ≠ b1.1 ∨ a1.2 ≠ b1.2
         then 1 else 0)

/-- Error-counter total of detail::check_not_owned over all patches. -/
def check_not_owned_total (ctx : Context) : Nat :=
  ∑ p ∈ Finset.range ctx.m_num_patches,
    ((∑ f ∈ Finset.range (ctx.m_patches_info p).num_faces,
        check_not_owned_face_count ctx p f) +
     (∑ e ∈ Finset.range (ctx.m_patches_info p).num_edges,
        check_not_owned_edge_count ctx p e))

/-- Mirroring condition for a not-owned face, as C5 states it: the owner
patch claims ownership of the LP-resolved index, the face is not deleted
there, and the three owner-resolved (edge, direction, patch) triples agree
component by component between the ribbon copy and the owner copy. -/
def face_mirror_ok (ctx : Context) (patch_id f : Nat) : Prop :=
  let pi := ctx.m_patches_info patch_id
  let u0 := unpack_edge_dir (pi.fe (3 * f))
  let u1 := unpack_edge_dir (pi.fe (3 * f + 1))
  let u2 := unpack_edge_dir (pi.fe (3 * f + 2))
  let a0 := get_owned_e pi u0.1 patch_id
  let a1 := get_owned_e pi u1.1 patch_id
  let a2 := get_owned_e pi u2.1 patch_id
  let f_pair := pi.lp_f f
  let f_owned := f_pair.local_id_in_owner_patch
  let f_patch := get_patch pi f_pair
  let owner := ctx.m_patches_info f_patch
  let w0 := unpack_edge_dir (owner.fe (3 * f_owned))
  let w1 := unpack_edge_dir (owner.fe (3 * f_owned + 1))
  let w2 := unpack_edge_dir (owner.fe (3 * f_owned + 2))
  let b0 := get_owned_e owner w0.1 f_patch
  let b1 := get_owned_e owner w1.1 f_patch
  let b2 := get_owned_e owner w2.1 f_patch
  is_owned f_owned owner.owned_mask_f = true ∧
  is_deleted f_owned owner.active_mask_f = false ∧
  (a0.1 = b0.1 ∧ u0.2 = w0.2 ∧ a0.2 = b0.2 ∧
   a1.1 = b1.1 ∧ u1.2 = w1.2 ∧ a1.2 = b1.2 ∧
   a2.1 = b2.1 ∧ u2.2 = w2.2 ∧ a2.2 = b2.2)

/-- Mirroring condition for a not-owned edge, as C5 states it, against the
edge's two vertices in the owner patch. -/
def edge_mirror_ok (ctx : Context) (patch_id e : Nat) : Prop :=
  let pi := ctx.m_patches_info patch_id
  let a0 := get_owned_v pi (pi.ev (2 * e)) patch_id
  let a1 := get_owned_v pi (pi.ev (2 * e + 1)) patch_id
  let e_pair := pi.lp_e e
  let e_owned := e_pair.local_id_in_owner_patch
  let e_patch := get_patch pi e_pair
  let owner := ctx.m_patches_info e_patch
  let b0 := get_owned_v owner (owner.ev (2 * e_owned)) e_patch
  let b1 := get_owned_v owner (owner.ev (2 * e_owned + 1)) e_patch
  is_owned e_owned owner.owned_mask_e = true ∧
  is_deleted e_owned owner.active_mask_e = false ∧
  (a0.1 = b0.1 ∧ a0.2 = b0.2 ∧ a1.1 = b1.1 ∧ a1.2 = b1.2)

lemma not_owned_count_shape (cO cD cM : Prop)
    [Decidable cO] [Decidable cD] [Decidable cM] :
    ((if cD then (if cO then 0 else 1) + 1
      else (if cO then 0 else 1) + (if cM then 1 else 0)) : Nat) ≠ 0 ↔
      ¬(cO ∧ ¬cD ∧ ¬cM) := by
  split_ifs <;> simp_all

/-- C5: a non-deleted, not-owned face increments the mirroring-check error
counter iff the owner patch fails to claim ownership, or the face is deleted
in the owner patch, or some owner-resolved (edge, direction, patch)
component of its three edges disagrees with the owner copy; the identical
characterization holds for a non-deleted, not-owned edge against its two
vertices in the owner patch. -/
theorem check_not_owned_characterization (ctx : Context) (p f e : Nat)
    (hp : p < ctx.m_num_patches)
    (hf : f < (ctx.m_patches_info p).num_faces)
    (hfd : is_deleted f (ctx.m_patches_info p).active_mask_f = false)
    (hfo : is_owned f (ctx.m_patches_info p).owned_mask_f = false)
    (he : e < (ctx.m_patches_info p).num_edges)
    (hed : is_deleted e (ctx.m_patches_info p).active_mask_e = false)
    (heo : is_owned e (ctx.m_patches_info p).owned_mask_e = false) :
    (check_not_owned_face_count ctx p f ≠ 0 ↔ ¬ face_mirror_ok ctx p f) ∧
    (check_not_owned_edge_count ctx p e ≠ 0 ↔ ¬ edge_mirror_ok ctx p e) := by
  constructor
  · simp only [check_not_owned_face_count, face_mirror_ok]
    rw [if_neg (by simp [hfd, hfo])]
    rw [not_owned_count_shape]
    simp only [Bool.not_eq_true, not_or, not_ne_iff]
  · simp only [check_not_owned_edge_count, edge_mirror_ok]
    rw [if_neg (by simp [hed, heo])]
    rw [not_owned_count_shape]
    simp only [Bool.not_eq_true, not_or, not_ne_iff]

/-- A patch holding a not-owned, fully active copy of the triangle whose
owner is patch 0: every LP entry maps a local index to the same index in the
owner, through stash slot 0. -/
def ribbon_patch : PatchInfo where
  num_vertices := 3
  num_edges := 3
  num_faces := 1
  ev := tri_ev
  fe := tri_fe
  active_mask_v := fun _ => true
  active_mask_e := fun _ => true
  active_mask_f := fun _ => true
  owned_mask_v := fun _ => false
  owned_mask_e := fun _ => false
  owned_mask_f := fun _ => false
  lp_v := fun i => ⟨i, 0⟩
  lp_e := fun i => ⟨i, 0⟩
  lp_f := fun i => ⟨i, 0⟩
  patch_stash := fun _ => 0

/-- A two-patch context: patch 0 owns the triangle, patch 1 holds it as a
ribbon copy. -/
def ctx2 : Context where
  m_num_patches := 2
  m_num_vertices := 3
  m_num_edges := 3
  m_num_faces := 1
  m_patches_info := fun p => if p = 0 then tri_patch else ribbon_patch

/-- C5 witness: face 0 and edge 0 of patch 1 in ctx2 are non-deleted and
not owned, the characterization instantiates there, and the error
contributions of both evaluate to zero on this consistent mirror. -/
theorem check_not_owned_characterization_witness :
    (1 < ctx2.m_num_patches ∧
     0 < (ctx2.m_patches_info 1).num_faces ∧
     is_deleted 0 (ctx2.m_patches_info 1).active_mask_f = false ∧
     is_owned 0 (ctx2.m_patches_info 1).owned_mask_f = false ∧
     0 < (ctx2.m_patches_info 1).num_edges ∧
     is_deleted 0 (ctx2.m_patches_info 1).active_mask_e = false ∧
     is_owned 0 (ctx2.m_patches_info 1).owned_mask_e = false) ∧
    ((check_not_owned_face_count ctx2 1 0 ≠ 0 ↔ ¬ face_mirror_ok ctx2 1 0) ∧
     (check_not_owned_edge_count ctx2 1 0 ≠ 0 ↔ ¬ edge_mirror_ok ctx2 1 0)) ∧
    check_not_owned_face_count ctx2 1 0 = 0 ∧
    check_not_owned_edge_count ctx2 1 0 = 0 :=
  ⟨⟨by decide, by decide, by decide, by decide, by decide, by decide,
    by decide⟩,
   check_not_owned_characterization ctx2 1 0 0 (by decide) (by decide)
     (by decide) (by decide) (by decide) (by decide) (by decide),
   by decide, by decide⟩

/-- Modelled from the spec: the vertex of slot k that the FV kernel f_v
(loader.cuh is not among the given sources) derives for face f, by picking
the endpoint of the direction-tagged edge entry (spec section 4.3, ribbon
completeness part b). -/
def face_vertex (pi : PatchInfo) (f k : Nat) : Nat :=
  pi.ev (2 * (unpack_edge_dir (pi.fe (3 * f + k))).1 +
    (unpack_edge_dir (pi.fe (3 * f + k))).2)

/-- Ribbon resolution of a local vertex to a (patch id, local id) handle, as
done inline in detail::check_ribbon_faces. -/
def resolve_v (pi : PatchInfo) (patch_id v : Nat) : Nat × Nat :=
  if is_owned v pi.owned_mask_v then (patch_id, v)
  else (get_patch pi (pi.lp_v v), (pi.lp_v v).local_id_in_owner_patch)

/-- Ribbon resolution of a local face to a (patch id, local id) handle, as
done inline in detail::check_ribbon_faces. -/
def resolve_f (pi : PatchInfo) (patch_id f : Nat) : Nat × Nat :=
  if is_owned f pi.owned_mask_f then (patch_id, f)
  else (get_patch pi (pi.lp_f f), (pi.lp_f f).local_id_in_owner_patch)

/-- Modelled from the spec: membership of face (q, g) in the true global
vertex-to-face adjacency of the vertex handle vh, as staged into the vf
attribute by detail::compute_vf (whose query dispatcher is not among the
given sources): the owned, non-deleted faces one of whose resolved vertices
is vh (spec section 4.3, ribbon completeness part b). -/
def global_vf_mem (ctx : Context) (vh : Nat × Nat) (q g : Nat) : Bool :=
  let pq := ctx.m_patches_info q
  !(is_deleted g pq.active_mask_f) && is_owned g pq.owned_mask_f &&
  ((resolve_v pq q (face_vertex pq g 0) == vh) ||
   (resolve_v pq q (face_vertex pq g 1) == vh) ||
   (resolve_v pq q (face_vertex pq g 2) == vh))

/-- Modelled from the spec: result of detail::check_ribbon_faces (its FV/VF
shared-memory transpose helpers are not among the given sources): for every
owned face and each of its three vertices, every face of that vertex's
global adjacency must be discoverable, after ribbon resolution, among the
non-deleted local faces incident to the vertex (spec section 4.3, ribbon
completeness part b). -/
def check_ribbon_faces_ok (ctx : Context) : Bool :=
  (List.range ctx.m_num_patches).all fun p =>
    let pi := ctx.m_patches_info p
    (List.range pi.num_faces).all fun f =>
      !(is_owned f pi.owned_mask_f) ||
      ((List.range 3).all fun k =>
        let v := face_vertex pi f k
        let vh := resolve_v pi p v
        (List.range ctx.m_num_patches).all fun q =>
          (List.range (ctx.m_patches_info q).num_faces).all fun g =>
            !(global_vf_mem ctx vh q g) ||
            ((List.range pi.num_faces).any fun h2 =>
              !(is_deleted h2 pi.active_mask_f) &&
              ((List.range 3).any fun k2 => face_vertex pi h2 k2 == v) &&
              (resolve_f pi p h2 == (q, g))))

/-- The is_okay lambda of RXMeshDynamic::validate: a check passes iff its
error counter reads back zero. -/
def is_okay (count : Nat) : Bool :=
  if count ≠ 0 then false else true

/-- Result of the check_ribbon lambda as a function of the context: fail on
a nonzero ribbon-edge counter, otherwise report the ribbon-face result. -/
def check_ribbon_result (ctx : Context) : Bool :=
  if is_okay (check_ribbon_edges_total ctx) = false then false
  else check_ribbon_faces_ok ctx

/-- Name of the vertex attribute the ribbon check stages the global
vertex-to-face adjacency in. -/
def vf_attribute_name : String := "vf"

/-- Host-side mesh state relevant to RXMeshDynamic::validate: the device
context, the m_quite logging-verbosity flag, and the set of named
attributes attached to the mesh. -/
structure MeshState where
  ctx : Context
  m_quite : Bool
  attributes : List String

/-- Modelled from the spec: RXMeshStatic::add_vertex_attribute
(rxmesh_static.h is not among the given sources) registers a new named
attribute on the mesh and hands out its storage (spec section 6,
attribute-storage abstraction); only the registration on the mesh matters
here. -/
def add_vertex_attribute (s : MeshState) (name : String) : MeshState :=
  { s with attributes := s.attributes ++ [name] }

/-- The check_ribbon lambda of RXMeshDynamic::validate as a state
transformer: run the ribbon-edge kernel and return early on failure;
otherwise compute the max valence, add the vf attribute, stage the global
VF adjacency in it and run the ribbon-face kernel. The vf attribute is
never removed. -/
def check_ribbon_st (s : MeshState) : Bool × MeshState :=
  if is_okay (check_ribbon_edges_total s.ctx) = false then (false, s)
  else (check_ribbon_faces_ok s.ctx, add_vertex_attribute s vf_attribute_name)

/-- Diagnostic label of a failing element-count check. -/
def check_num_label : String :=
  "RXMeshDynamic::validate() check_num_mesh_elements failed"

/-- Diagnostic label of a failing uniqueness check. -/
def check_uniqueness_label : String :=
  "RXMeshDynamic::validate() check_uniqueness failed"

/-- Diagnostic label of a failing mirroring check. -/
def check_not_owned_label : String :=
  "RXMeshDynamic::validate() check_not_owned failed"

/-- Diagnostic label of a failing ribbon check. -/
def check_ribbon_label : String :=
  "RXMeshDynamic::validate() check_ribbon failed"

/-- RXMeshDynamic::validate: cache and override m_quite, run the four
checks unconditionally, emit one diagnostic per failing check, restore
m_quite, and return the conjunction of the four results. -/
def validate (s : MeshState) : Bool × List String × MeshState :=
  let cached_quite := s.m_quite
  let s1 : MeshState := { s with m_quite := true }
  let ok_num := check_num_mesh_elements s1.ctx
  let ok_uniq := is_okay (check_uniqueness_total s1.ctx)
  let ok_not_owned := is_okay (check_not_owned_total s1.ctx)
  let r := check_ribbon_st s1
  let msgs :=
    (if ok_num then [] else [check_num_label]) ++
    (if ok_uniq then [] else [check_uniqueness_label]) ++
    (if ok_not_owned then [] else [check_not_owned_label]) ++
    (if r.1 then [] else [check_ribbon_label])
  (ok_num && ok_uniq && ok_not_owned && r.1, msgs,
   { r.2 with m_quite := cached_quite })

lemma is_okay_iff (n : Nat) : is_okay n = true ↔ n = 0 := by
  unfold is_okay
  split_ifs with h
  · exact iff_of_false (by simp) h
  · exact iff_of_true rfl (not_not.mp h)

/-- C3: validate runs all four checks to completion regardless of earlier
failures, returns true iff all four pass, and each failing check produces
exactly one diagnostic carrying its own label, the four labels being
pairwise distinct. -/
theorem validate_all_checks (s : MeshState) :
    ((validate s).1 = true ↔
      (check_num_mesh_elements s.ctx = true ∧
       check_uniqueness_total s.ctx = 0 ∧
       check_not_owned_total s.ctx = 0 ∧
       check_ribbon_result s.ctx = true)) ∧
    ((validate s).2.1.count check_num_label =
      (if check_num_mesh_elements s.ctx = true then 0 else 1)) ∧
    ((validate s).2.1.count check_uniqueness_label =
      (if check_uniqueness_total s.ctx = 0 then 0 else 1)) ∧
    ((validate s).2.1.count check_not_owned_label =
      (if check_not_owned_total s.ctx = 0 then 0 else 1)) ∧
    ((validate s).2.1.count check_ribbon_label =
      (if check_ribbon_result s.ctx = true then 0 else 1)) ∧
    (check_num_label ≠ check_uniqueness_label ∧
     check_num_label ≠ check_not_owned_label ∧
     check_num_label ≠ check_ribbon_label ∧
     check_uniqueness_label ≠ check_not_owned_label ∧
     check_uniqueness_label ≠ check_ribbon_label ∧
     check_not_owned_label ≠ check_ribbon_label) := by
  have hlabels : check_num_label ≠ check_uniqueness_label ∧
      check_num_label ≠ check_not_owned_label ∧
      check_num_label ≠ check_ribbon_label ∧
      check_uniqueness_label ≠ check_not_owned_label ∧
      check_uniqueness_label ≠ check_ribbon_label ∧
      check_not_owned_label ≠ check_ribbon_label := by
    refine ⟨?_, ?_, ?_, ?_, ?_, ?_⟩ <;> decide
  simp only [validate, check_ribbon_st, check_ribbon_result]
  by_cases h1 : check_num_mesh_elements s.ctx = true <;>
    by_cases h2 : check_uniqueness_total s.ctx = 0 <;>
    by_cases h3 : check_not_owned_total s.ctx = 0 <;>
    by_cases h4 : check_ribbon_edges_total s.ctx = 0 <;>
    by_cases h5 : check_ribbon_faces_ok s.ctx = true <;>
    simp_all [is_okay, List.count_append, List.count_singleton,
      List.count_nil, List.count_cons, hlabels.1, hlabels.2.1, hlabels.2.2.1,
      hlabels.2.2.2.1, hlabels.2.2.2.2.1, hlabels.2.2.2.2.2,
      Ne.symm hlabels.1, Ne.symm hlabels.2.1, Ne.symm hlabels.2.2.1,
      Ne.symm hlabels.2.2.2.1, Ne.symm hlabels.2.2.2.2.1,
      Ne.symm hlabels.2.2.2.2.2]

/-- The context holding no patches at all. -/
def empty_ctx : Context where
  m_num_patches := 0
  m_num_vertices := 0
  m_num_edges := 0
  m_num_faces := 0
  m_patches_info := fun _ => tri_patch

/-- A mesh state over the empty context with no attributes attached. -/
def s_empty : MeshState := ⟨empty_ctx, false, []⟩

/-- C4 counterexample: on the empty mesh every check passes, and validate
returns with the attribute set changed from empty to the singleton vf — the
ribbon check registered its staging attribute and never removed it, so the
claim that the attribute set is left unchanged is false on this input. -/
theorem validate_attribute_set_changed :
    (validate s_empty).2.2.attributes ≠ s_empty.attributes := by decide

/-- C4 (amended): validate never mutates the device context (topology,
counts, masks, LP tables, stashes) and always restores the m_quite
logging-verbosity flag to its pre-call value; but whenever the ribbon-edge
subcheck passes, it adds the vf vertex attribute to the mesh's attribute
set and does not remove it. -/
theorem validate_frame (s : MeshState) :
    (validate s).2.2.ctx = s.ctx ∧
    (validate s).2.2.m_quite = s.m_quite ∧
    (validate s).2.2.attributes = s.attributes ++
      (if is_okay (check_ribbon_edges_total s.ctx) = false then []
       else [vf_attribute_name]) := by
  simp only [validate, check_ribbon_st, add_vertex_attribute]
  by_cases h : is_okay (check_ribbon_edges_total s.ctx) = false <;> simp [h]

/-- INVALID32: the all-ones 32-bit word (util/macros.h is not among the
given sources). -/
def INVALID32 : Nat := 2 ^ 32 - 1

/-- DIVIDE_UP from util/macros.h: ceiling division. -/
def DIVIDE_UP (a b : Nat) : Nat := (a + b - 1) / b

/-- Modelled from the spec: bitmask_set_bit from bitmask_util.h (not among
the given sources) sets bit (bit mod 32) of word (bit / 32); the atomic
variant has the same sequential meaning, so the is_atomic flag is
dropped. -/
def bitmask_set_bit (bit : Nat) (mask : Nat → Nat) : Nat → Nat :=
  fun i => if i = bit / 32 then mask i ||| (1 <<< (bit % 32)) else mask i

/-- Modelled from the spec: bitmask_clear_bit from bitmask_util.h clears bit
(bit mod 32) of word (bit / 32) by anding with the 32-bit complement of the
single-bit word. -/
def bitmask_clear_bit (bit : Nat) (mask : Nat → Nat) : Nat → Nat :=
  fun i => if i = bit / 32 then mask i &&& (INVALID32 ^^^ (1 <<< (bit % 32)))
           else mask i

/-- Modelled from the spec: bitmask_flip_bit from bitmask_util.h xors bit
(bit mod 32) of word (bit / 32). -/
def bitmask_flip_bit (bit : Nat) (mask : Nat → Nat) : Nat → Nat :=
  fun i => if i = bit / 32 then mask i ^^^ (1 <<< (bit % 32)) else mask i

/-- Modelled from the spec: is_set_bit from bitmask_util.h reads bit
(bit mod 32) of word (bit / 32). -/
def is_set_bit (bit : Nat) (mask : Nat → Nat) : Bool :=
  Nat.testBit (mask (bit / 32)) (bit % 32)

/-- The Bitmask primitive: logical size in bits plus the backing word array
(each entry one 32-bit word). -/
structure Bitmask where
  m_size : Nat
  m_bitmask : Nat → Nat

/-- Bitmask::size(). -/
def Bitmask.size (b : Bitmask) : Nat := b.m_size

/-- Bitmask::num_bytes(size). -/
def Bitmask.num_bytes (size : Nat) : Nat := DIVIDE_UP size 32 * 4

/-- Bitmask::reset(): host-side bulk zeroing of every word of the mask. -/
def Bitmask.reset_all (b : Bitmask) : Bitmask :=
  { b with m_bitmask := fun i =>
      if i < DIVIDE_UP b.m_size 32 then 0 else b.m_bitmask i }

/-- Bitmask::set(): host-side bulk filling of every word with INVALID32. -/
def Bitmask.set_all (b : Bitmask) : Bitmask :=
  { b with m_bitmask := fun i =>
      if i < DIVIDE_UP b.m_size 32 then INVALID32 else b.m_bitmask i }

/-- Bitmask::set(bit): the debug assertion bit < size() is the fatal
contract-violation path, modelled as none. -/
def Bitmask.set (b : Bitmask) (bit : Nat) : Option Bitmask :=
  if bit < b.size then
    some { b with m_bitmask := bitmask_set_bit bit b.m_bitmask }
  else none

/-- Bitmask::reset(bit), with the same contract-violation path. -/
def Bitmask.reset (b : Bitmask) (bit : Nat) : Option Bitmask :=
  if bit < b.size then
    some { b with m_bitmask := bitmask_clear_bit bit b.m_bitmask }
  else none

/-- Bitmask::flip(bit), with the same contract-violation path. -/
def Bitmask.flip (b : Bitmask) (bit : Nat) : Option Bitmask :=
  if bit < b.size then
    some { b with m_bitmask := bitmask_flip_bit bit b.m_bitmask }
  else none

/-- Bitmask::operator()(bit): test a bit, with the same contract-violation
path. -/
def Bitmask.test (b : Bitmask) (bit : Nat) : Option Bool :=
  if bit < b.size then some (is_set_bit bit b.m_bitmask) else none

/-- C9: for every mask and every bit index i below the size, set(i) followed
by a test of bit i yields true and reset(i) followed by a test yields false,
whatever the other bits hold; and every bit operation at index size() (the
first out-of-range index) takes the contract-violation path instead of
returning a value. -/
theorem bitmask_round_trip (b : Bitmask) (i : Nat) (h : i < b.size) :
    ((b.set i).bind fun b2 => b2.test i) = some true ∧
    ((b.reset i).bind fun b2 => b2.test i) = some false ∧
    b.set b.size = none ∧ b.reset b.size = none ∧
    b.flip b.size = none ∧ b.test b.size = none := by
  have hmod : i % 32 < 32 := Nat.mod_lt _ (by norm_num)
  refine ⟨?_, ?_, ?_, ?_, ?_, ?_⟩
  · rw [Bitmask.set, if_pos h]
    show ({ b with m_bitmask := bitmask_set_bit i b.m_bitmask } : Bitmask).test i
      = some true
    simp only [Bitmask.test, Bitmask.size]
    rw [if_pos (show i < b.m_size from h)]
    simp [is_set_bit, bitmask_set_bit, Nat.testBit_or, Nat.testBit_shiftLeft]
  · rw [Bitmask.reset, if_pos h]
    show ({ b with m_bitmask := bitmask_clear_bit i b.m_bitmask } : Bitmask).test i
      = some false
    simp only [Bitmask.test, Bitmask.size]
    rw [if_pos (show i < b.m_size from h)]
    have hinv : Nat.testBit INVALID32 (i % 32) = true := by
      show Nat.testBit (2 ^ 32 - 1) (i % 32) = true
      rw [Nat.testBit_two_pow_sub_one]
      simpa using hmod
    simp [is_set_bit, bitmask_clear_bit, Nat.testBit_and, Nat.testBit_xor,
      Nat.testBit_shiftLeft, hinv]
  · simp [Bitmask.set]
  · simp [Bitmask.reset]
  · simp [Bitmask.flip]
  · simp [Bitmask.test]

/-- A concrete three-bit mask backed by zeroed words. -/
def b0 : Bitmask := ⟨3, fun _ => 0⟩

/-- C9 witness: the round trip instantiated on the concrete three-bit mask
at bit 1. -/
theorem bitmask_round_trip_witness :
    1 < b0.size ∧
    (((b0.set 1).bind fun b2 => b2.test 1) = some true ∧
     ((b0.reset 1).bind fun b2 => b2.test 1) = some false ∧
     b0.set b0.size = none ∧ b0.reset b0.size = none ∧
     b0.flip b0.size = none ∧ b0.test b0.size = none) :=
  ⟨by decide, bitmask_round_trip b0 1 (by decide)⟩

/-- Device-resident per-patch state as read back by
RXMeshDynamic::update_host: authoritative counts, topology, masks, patch
stash, and the raw LP hash tables (main table plus overflow stash); the LP
tables are byte-copied wholesale, so they are modelled as opaque word
lists. -/
structure DPatchInfo where
  patch_id : Nat
  num_vertices : Nat
  num_edges : Nat
  num_faces : Nat
  ev : Nat → Nat
  fe : Nat → Nat
  active_mask_v : Nat → Bool
  active_mask_e : Nat → Bool
  active_mask_f : Nat → Bool
  owned_mask_v : Nat → Bool
  owned_mask_e : Nat → Bool
  owned_mask_f : Nat → Bool
  patch_stash : Nat → Nat
  lp_v : List Nat
  lp_e : List Nat
  lp_f : List Nat

/-- Host-side mirror of one patch, with the recorded capacities that gate
reallocation. -/
structure HostPatch where
  num_vertices : Nat
  num_edges : Nat
  num_faces : Nat
  vertices_capacity : Nat
  edges_capacity : Nat
  faces_capacity : Nat
  ev : Nat → Nat
  fe : Nat → Nat
  active_mask_v : Nat → Bool
  active_mask_e : Nat → Bool
  active_mask_f : Nat → Bool
  owned_mask_v : Nat → Bool
  owned_mask_e : Nat → Bool
  owned_mask_f : Nat → Bool
  patch_stash : Nat → Nat
  lp_v : List Nat
  lp_e : List Nat
  lp_f : List Nat

/-- A bulk host-device copy of the first len entries of src over dst;
entries past len keep their previous contents. -/
def copy_region {α : Type} (len : Nat) (src dst : Nat → α) : Nat → α :=
  fun i => if i < len then src i else dst i

/-- PatchStash::stash_size, the fixed capacity of the per-patch stash of
neighbor patch ids (patch_stash.h is not among the given sources; the
routine copies the whole fixed-size array, so the exact constant does not
affect any claim). -/
def stash_size : Nat := 32

/-- The topology branch of the update_host loop: when the new count exceeds
the recorded capacity the host array is freed and reallocated exactly large
enough (fresh memory modelled as zero-filled; the copy that follows fills
all of it); the capacity itself is deliberately not updated here. -/
def realloc_topology (count cap : Nat) (arr : Nat → Nat) : Nat → Nat :=
  if cap < count then fun _ => 0 else arr

/-- The capacity update performed by the resize_masks lambda of update_host:
capacities only ever grow. -/
def update_capacity (count cap : Nat) : Nat :=
  if cap < count then count else cap

/-- The reallocation performed by the resize_masks lambda of update_host
(fresh mask memory modelled as all-false; the copy that follows fills the
meaningful bits). -/
def realloc_mask (count cap : Nat) (mask : Nat → Bool) : Nat → Bool :=
  if cap < count then fun _ => false else mask

/-- Per-patch body of the update_host loop: pull the counts, reallocate
topology when it outgrew the recorded capacity (without touching the
capacity), copy the topology prefixes, resize the mask pairs (updating the
capacities), copy the masks (word-granular in the source; the meaningful
first count bits are the region modelled), copy the whole patch stash and
the raw LP tables. -/
def update_host_patch (d : DPatchInfo) (h : HostPatch) : HostPatch where
  num_vertices := d.num_vertices
  num_edges := d.num_edges
  num_faces := d.num_faces
  vertices_capacity := update_capacity d.num_vertices h.vertices_capacity
  edges_capacity := update_capacity d.num_edges h.edges_capacity
  faces_capacity := update_capacity d.num_faces h.faces_capacity
  ev := copy_region (2 * d.num_edges) d.ev
    (realloc_topology d.num_edges h.edges_capacity h.ev)
  fe := copy_region (3 * d.num_faces) d.fe
    (realloc_topology d.num_faces h.faces_capacity h.fe)
  active_mask_v := copy_region d.num_vertices d.active_mask_v
    (realloc_mask d.num_vertices h.vertices_capacity h.active_mask_v)
  active_mask_e := copy_region d.num_edges d.active_mask_e
    (realloc_mask d.num_edges h.edges_capacity h.active_mask_e)
  active_mask_f := copy_region d.num_faces d.active_mask_f
    (realloc_mask d.num_faces h.faces_capacity h.active_mask_f)
  owned_mask_v := copy_region d.num_vertices d.owned_mask_v
    (realloc_mask d.num_vertices h.vertices_capacity h.owned_mask_v)
  owned_mask_e := copy_region d.num_edges d.owned_mask_e
    (realloc_mask d.num_edges h.edges_capacity h.owned_mask_e)
  owned_mask_f := copy_region d.num_faces d.owned_mask_f
    (realloc_mask d.num_faces h.faces_capacity h.owned_mask_f)
  patch_stash := copy_region stash_size d.patch_stash h.patch_stash
  lp_v := d.lp_v
  lp_e := d.lp_e
  lp_f := d.lp_f

/-- Device-resident state touched by update_host: the patch count and global
counts, the patch array, and the per-patch summary arrays re-uploaded at the
end. -/
structure DeviceState where
  m_num_patches : Nat
  m_num_vertices : Nat
  m_num_edges : Nat
  m_num_faces : Nat
  m_d_patches_info : Nat → DPatchInfo
  m_d_num_v : Nat → Nat
  m_d_num_e : Nat → Nat
  m_d_num_f : Nat → Nat
  m_d_num_owned_v : Nat → Nat
  m_d_num_owned_e : Nat → Nat
  m_d_num_owned_f : Nat → Nat

/-- Host-resident mirrors maintained by update_host: the host patch count
(never written by the routine), global counts, per-patch mirrors, per-patch
count and owned-count arrays, and the owned-count prefix-sum arrays (one
entry per patch plus a base entry at index 0 that the loop never
writes). -/
structure HostState where
  m_num_patches : Nat
  m_num_vertices : Nat
  m_num_edges : Nat
  m_num_faces : Nat
  m_h_patches_info : Nat → HostPatch
  m_h_num_v : Nat → Nat
  m_h_num_e : Nat → Nat
  m_h_num_f : Nat → Nat
  m_h_num_owned_v : Nat → Nat
  m_h_num_owned_e : Nat → Nat
  m_h_num_owned_f : Nat → Nat
  m_h_vertex_prefix_sum : Nat → Nat
  m_h_edge_prefix_sum : Nat → Nat
  m_h_face_prefix_sum : Nat → Nat

/-- The full state update_host operates on. -/
structure SysState where
  dev : DeviceState
  host : HostState

/-- Sequential prefix computation of the update_host loop: entry 0 is the
existing base entry, entry p+1 is entry p plus the owned count of patch
p. -/
def prefix_sum_from (base : Nat) (count : Nat → Nat) : Nat → Nat
  | 0 => base
  | p + 1 => prefix_sum_from base count p + count p

/-- The per-patch mirrors after the update_host loop: every patch index
below the host patch count is reconciled from the device; the loop bound is
the host count, not the device count. -/
def uh_patches (s : SysState) : Nat → HostPatch :=
  fun p => if p < s.host.m_num_patches then
    update_host_patch (s.dev.m_d_patches_info p) (s.host.m_h_patches_info p)
  else s.host.m_h_patches_info p

/-- A per-patch host array after the loop: entries below the patch count
are recomputed from the reconciled patch, the rest keep their contents. -/
def count_field_update (np : Nat) (patches : Nat → HostPatch)
    (get : HostPatch → Nat) (old : Nat → Nat) : Nat → Nat :=
  fun p => if p < np then get (patches p) else old p

/-- A prefix-sum array after the loop: entries 1..np are the running sums
seeded from the untouched base entry, the rest keep their contents. -/
def prefix_field_update (np : Nat) (cnt : Nat → Nat) (old : Nat → Nat) :
    Nat → Nat :=
  fun i => if i ≤ np then prefix_sum_from (old 0) cnt i else old i

/-- m_h_num_v after the loop. -/
def uh_num_v (s : SysState) : Nat → Nat :=
  count_field_update s.host.m_num_patches (uh_patches s)
    (fun hh => hh.num_vertices) s.host.m_h_num_v

/-- m_h_num_e after the loop. -/
def uh_num_e (s : SysState) : Nat → Nat :=
  count_field_update s.host.m_num_patches (uh_patches s)
    (fun hh => hh.num_edges) s.host.m_h_num_e

/-- m_h_num_f after the loop. -/
def uh_num_f (s : SysState) : Nat → Nat :=
  count_field_update s.host.m_num_patches (uh_patches s)
    (fun hh => hh.num_faces) s.host.m_h_num_f

/-- m_h_num_owned_v after the loop; PatchInfo::get_num_owned_vertices is
modelled from the spec as the owned-bit count (num_owned_in). -/
def uh_num_owned_v (s : SysState) : Nat → Nat :=
  count_field_update s.host.m_num_patches (uh_patches s)
    (fun hh => num_owned_in hh.num_vertices hh.owned_mask_v)
    s.host.m_h_num_owned_v

/-- m_h_num_owned_e after the loop. -/
def uh_num_owned_e (s : SysState) : Nat → Nat :=
  count_field_update s.host.m_num_patches (uh_patches s)
    (fun hh => num_owned_in hh.num_edges hh.owned_mask_e)
    s.host.m_h_num_owned_e

/-- m_h_num_owned_f after the loop. -/
def uh_num_owned_f (s : SysState) : Nat → Nat :=
  count_field_update s.host.m_num_patches (uh_patches s)
    (fun hh => num_owned_in hh.num_faces hh.owned_mask_f)
    s.host.m_h_num_owned_f

/-- m_h_vertex_prefix after the loop. -/
def uh_vertex_prefix_fun (s : SysState) : Nat → Nat :=
  prefix_field_update s.host.m_num_patches
    (fun p => num_owned_in (uh_patches s p).num_vertices
      (uh_patches s p).owned_mask_v)
    s.host.m_h_vertex_prefix_sum

/-- m_h_edge_prefix after the loop. -/
def uh_edge_prefix_fun (s : SysState) : Nat → Nat :=
  prefix_field_update s.host.m_num_patches
    (fun p => num_owned_in (uh_patches s p).num_edges
      (uh_patches s p).owned_mask_e)
    s.host.m_h_edge_prefix_sum

/-- m_h_face_prefix after the loop. -/
def uh_face_prefix_fun (s : SysState) : Nat → Nat :=
  prefix_field_update s.host.m_num_patches
    (fun p => num_owned_in (uh_patches s p).num_faces
      (uh_patches s p).owned_mask_f)
    s.host.m_h_face_prefix_sum

/-- Host state after update_host: reconciled patch mirrors, global counts
copied from the device, recomputed per-patch arrays and prefix sums. The
host patch count is never written. -/
def uh_host (s : SysState) : HostState where
  m_num_patches := s.host.m_num_patches
  m_num_vertices := s.dev.m_num_vertices
  m_num_edges := s.dev.m_num_edges
  m_num_faces := s.dev.m_num_faces
  m_h_patches_info := uh_patches s
  m_h_num_v := uh_num_v s
  m_h_num_e := uh_num_e s
  m_h_num_f := uh_num_f s
  m_h_num_owned_v := uh_num_owned_v s
  m_h_num_owned_e := uh_num_owned_e s
  m_h_num_owned_f := uh_num_owned_f s
  m_h_vertex_prefix_sum := uh_vertex_prefix_fun s
  m_h_edge_prefix_sum := uh_edge_prefix_fun s
  m_h_face_prefix_sum := uh_face_prefix_fun s

/-- Device state after update_host: the refreshed per-patch summary arrays
are uploaded back (m_num_patches entries each); nothing else on the device
is written. -/
def uh_dev (s : SysState) : DeviceState :=
  { s.dev with
    m_d_num_v := copy_region s.host.m_num_patches (uh_num_v s)
      s.dev.m_d_num_v
    m_d_num_e := copy_region s.host.m_num_patches (uh_num_e s)
      s.dev.m_d_num_e
    m_d_num_f := copy_region s.host.m_num_patches (uh_num_f s)
      s.dev.m_d_num_f
    m_d_num_owned_v := copy_region s.host.m_num_patches (uh_num_owned_v s)
      s.dev.m_d_num_owned_v
    m_d_num_owned_e := copy_region s.host.m_num_patches (uh_num_owned_e s)
      s.dev.m_d_num_owned_e
    m_d_num_owned_f := copy_region s.host.m_num_patches (uh_num_owned_f s)
      s.dev.m_d_num_owned_f }

/-- Error reported when the device patch count disagrees with the host
patch count (the source text of the message, which lacks a negation,
is kept as is). -/
def patch_count_error : String :=
  "RXMeshDynamic::update_host() does support changing number of patches in the mesh"

/-- Error reported when the final vertex prefix-sum entry disagrees with the
global vertex count. -/
def vertex_prefix_sum_error : String :=
  "RXMeshDynamic::update_host error in updating host. m_num_vertices does not match m_h_vertex_prefix calculation"

/-- Error reported when the final edge prefix-sum entry disagrees with the
global edge count. -/
def edge_prefix_sum_error : String :=
  "RXMeshDynamic::update_host error in updating host. m_num_edges does not match m_h_edge_prefix calculation"

/-- Error reported when the final face prefix-sum entry disagrees with the
global face count. -/
def face_prefix_sum_error : String :=
  "RXMeshDynamic::update_host error in updating host. m_num_faces does not match m_h_face_prefix calculation"

/-- The diagnostics update_host emits, in source order: the patch-count
mismatch first, then the three prefix-sum consistency checks against the
freshly copied global counts. -/
def uh_errors (s : SysState) : List String :=
  (if s.dev.m_num_patches ≠ s.host.m_num_patches then [patch_count_error]
   else []) ++
  (if uh_vertex_prefix_fun s s.host.m_num_patches ≠ s.dev.m_num_vertices
   then [vertex_prefix_sum_error] else []) ++
  (if uh_edge_prefix_fun s s.host.m_num_patches ≠ s.dev.m_num_edges
   then [edge_prefix_sum_error] else []) ++
  (if uh_face_prefix_fun s s.host.m_num_patches ≠ s.dev.m_num_faces
   then [face_prefix_sum_error] else [])

/-- RXMeshDynamic::update_host: reconcile every host patch mirror from the
device, recompute counts, owned counts and prefix sums, re-upload the
summary arrays, and report diagnostics. The patch-count check at the top
only reports: control falls through to the reconciliation loop, which is
bounded by the host patch count. calc_max_elements recomputes derived
maxima from counts already in the state and the polyscope re-registration
concerns visualization only; neither touches the mirrors modelled here. -/
def update_host (s : SysState) : SysState × List String :=
  (⟨uh_dev s, uh_host s⟩, uh_errors s)

lemma copy_region_idem {α : Type} (len : Nat) (src x : Nat → α) :
    copy_region len src (copy_region len src x) = copy_region len src x := by
  funext i
  by_cases h : i < len <;> simp [copy_region, h]

lemma update_capacity_ge (count cap : Nat) :
    count ≤ update_capacity count cap := by
  unfold update_capacity
  split_ifs <;> omega

lemma update_capacity_idem (count cap : Nat) :
    update_capacity count (update_capacity count cap) =
      update_capacity count cap := by
  unfold update_capacity
  split_ifs <;> omega

lemma realloc_topology_after (count cap : Nat) (arr : Nat → Nat) :
    realloc_topology count (update_capacity count cap) arr = arr := by
  unfold realloc_topology
  rw [if_neg]
  have := update_capacity_ge count cap
  omega

lemma realloc_mask_after (count cap : Nat) (mask : Nat → Bool) :
    realloc_mask count (update_capacity count cap) mask = mask := by
  unfold realloc_mask
  rw [if_neg]
  have := update_capacity_ge count cap
  omega

lemma update_host_patch_idem (d : DPatchInfo) (h : HostPatch) :
    update_host_patch d (update_host_patch d h) = update_host_patch d h := by
  unfold update_host_patch
  dsimp only
  rw [HostPatch.mk.injEq]
  refine ⟨rfl, rfl, rfl, update_capacity_idem _ _, update_capacity_idem _ _,
    update_capacity_idem _ _, ?_, ?_, ?_, ?_, ?_, ?_, ?_, ?_,
    copy_region_idem _ _ _, rfl, rfl, rfl⟩ <;>
  first
    | rw [realloc_topology_after, copy_region_idem]
    | rw [realloc_mask_after, copy_region_idem]

lemma count_field_update_idem (np : Nat) (patches : Nat → HostPatch)
    (get : HostPatch → Nat) (old : Nat → Nat) :
    count_field_update np patches get (count_field_update np patches get old) =
      count_field_update np patches get old := by
  funext p
  by_cases h : p < np <;> simp [count_field_update, h]

lemma prefix_field_update_idem (np : Nat) (cnt : Nat → Nat)
    (old : Nat → Nat) :
    prefix_field_update np cnt (prefix_field_update np cnt old) =
      prefix_field_update np cnt old := by
  funext i
  by_cases h : i ≤ np <;>
    simp [prefix_field_update, prefix_sum_from, h, Nat.zero_le]

lemma uh_patches_second (s : SysState) :
    uh_patches (update_host s).1 = uh_patches s := by
  funext p
  show uh_patches ⟨uh_dev s, uh_host s⟩ p = uh_patches s p
  by_cases h : p < s.host.m_num_patches
  · show (if p < s.host.m_num_patches then
        update_host_patch (s.dev.m_d_patches_info p) (uh_patches s p)
      else uh_patches s p) = uh_patches s p
    rw [if_pos h]
    simp only [uh_patches]
    rw [if_pos h]
    exact update_host_patch_idem _ _
  · show (if p < s.host.m_num_patches then
        update_host_patch (s.dev.m_d_patches_info p) (uh_patches s p)
      else uh_patches s p) = uh_patches s p
    rw [if_neg h]

lemma uh_num_v_second (s : SysState) :
    uh_num_v (update_host s).1 = uh_num_v s := by
  show count_field_update s.host.m_num_patches (uh_patches (update_host s).1)
      (fun hh => hh.num_vertices) (uh_num_v s) = uh_num_v s
  rw [uh_patches_second s]
  exact count_field_update_idem _ _ _ _

lemma uh_num_e_second (s : SysState) :
    uh_num_e (update_host s).1 = uh_num_e s := by
  show count_field_update s.host.m_num_patches (uh_patches (update_host s).1)
      (fun hh => hh.num_edges) (uh_num_e s) = uh_num_e s
  rw [uh_patches_second s]
  exact count_field_update_idem _ _ _ _

lemma uh_num_f_second (s : SysState) :
    uh_num_f (update_host s).1 = uh_num_f s := by
  show count_field_update s.host.m_num_patches (uh_patches (update_host s).1)
      (fun hh => hh.num_faces) (uh_num_f s) = uh_num_f s
  rw [uh_patches_second s]
  exact count_field_update_idem _ _ _ _

lemma uh_num_owned_v_second (s : SysState) :
    uh_num_owned_v (update_host s).1 = uh_num_owned_v s := by
  show count_field_update s.host.m_num_patches (uh_patches (update_host s).1)
      (fun hh => num_owned_in hh.num_vertices hh.owned_mask_v)
      (uh_num_owned_v s) = uh_num_owned_v s
  rw [uh_patches_second s]
  exact count_field_update_idem _ _ _ _

lemma uh_num_owned_e_second (s : SysState) :
    uh_num_owned_e (update_host s).1 = uh_num_owned_e s := by
  show count_field_update s.host.m_num_patches (uh_patches (update_host s).1)
      (fun hh => num_owned_in hh.num_edges hh.owned_mask_e)
      (uh_num_owned_e s) = uh_num_owned_e s
  rw [uh_patches_second s]
  exact count_field_update_idem _ _ _ _

lemma uh_num_owned_f_second (s : SysState) :
    uh_num_owned_f (update_host s).1 = uh_num_owned_f s := by
  show count_field_update s.host.m_num_patches (uh_patches (update_host s).1)
      (fun hh => num_owned_in hh.num_faces hh.owned_mask_f)
      (uh_num_owned_f s) = uh_num_owned_f s
  rw [uh_patches_second s]
  exact count_field_update_idem _ _ _ _

lemma uh_vertex_prefix_second (s : SysState) :
    uh_vertex_prefix_fun (update_host s).1 = uh_vertex_prefix_fun s := by
  show prefix_field_update s.host.m_num_patches
      (fun p => num_owned_in (uh_patches (update_host s).1 p).num_vertices
        (uh_patches (update_host s).1 p).owned_mask_v)
      (uh_vertex_prefix_fun s) = uh_vertex_prefix_fun s
  rw [uh_patches_second s]
  exact prefix_field_update_idem _ _ _

lemma uh_edge_prefix_second (s : SysState) :
    uh_edge_prefix_fun (update_host s).1 = uh_edge_prefix_fun s := by
  show prefix_field_update s.host.m_num_patches
      (fun p => num_owned_in (uh_patches (update_host s).1 p).num_edges
        (uh_patches (update_host s).1 p).owned_mask_e)
      (uh_edge_prefix_fun s) = uh_edge_prefix_fun s
  rw [uh_patches_second s]
  exact prefix_field_update_idem _ _ _

lemma uh_face_prefix_second (s : SysState) :
    uh_face_prefix_fun (update_host s).1 = uh_face_prefix_fun s := by
  show prefix_field_update s.host.m_num_patches
      (fun p => num_owned_in (uh_patches (update_host s).1 p).num_faces
        (uh_patches (update_host s).1 p).owned_mask_f)
      (uh_face_prefix_fun s) = uh_face_prefix_fun s
  rw [uh_patches_second s]
  exact prefix_field_update_idem _ _ _

/-- C8: update_host is idempotent on the host mirrors — a second call with
no intervening device mutation reproduces the per-patch counts, topology
arrays, masks, patch stashes, LP tables, the per-patch count and
owned-count arrays, and the three owned-count prefix sums exactly as the
first call left them. (update_host itself only writes the device summary
arrays on the device side, which feed nothing in the routine, so no
device-side mutation happens between the two calls.) -/
theorem update_host_idempotent (s : SysState) :
    (update_host (update_host s).1).1.host = (update_host s).1.host := by
  show uh_host (update_host s).1 = uh_host s
  unfold uh_host
  rw [HostState.mk.injEq]
  exact ⟨rfl, rfl, rfl, rfl, uh_patches_second s, uh_num_v_second s,
    uh_num_e_second s, uh_num_f_second s, uh_num_owned_v_second s,
    uh_num_owned_e_second s, uh_num_owned_f_second s,
    uh_vertex_prefix_second s, uh_edge_prefix_second s,
    uh_face_prefix_second s⟩

/-- C1 (amended): when the device patch count read back at the start of
update_host differs from the host patch count, the routine reports the
patch-count error — and only then — but it does not abort: reconciliation
continues, bounded by the host patch count, and leaves both the host
mirrors and the re-uploaded device summary arrays (per-patch counts and
owned counts) in exactly the state they would have reached had the device
count agreed. -/
theorem update_host_patch_count_mismatch (s : SysState) :
    (patch_count_error ∈ (update_host s).2 ↔
      s.dev.m_num_patches ≠ s.host.m_num_patches) ∧
    ((update_host s).1.host =
      (update_host
        { s with
          dev := { s.dev with
            m_num_patches := s.host.m_num_patches } }).1.host ∧
     (update_host s).1.dev.m_d_num_v =
      (update_host
        { s with
          dev := { s.dev with
            m_num_patches := s.host.m_num_patches } }).1.dev.m_d_num_v ∧
     (update_host s).1.dev.m_d_num_e =
      (update_host
        { s with
          dev := { s.dev with
            m_num_patches := s.host.m_num_patches } }).1.dev.m_d_num_e ∧
     (update_host s).1.dev.m_d_num_f =
      (update_host
        { s with
          dev := { s.dev with
            m_num_patches := s.host.m_num_patches } }).1.dev.m_d_num_f ∧
     (update_host s).1.dev.m_d_num_owned_v =
      (update_host
        { s with
          dev := { s.dev with
            m_num_patches := s.host.m_num_patches } }).1.dev.m_d_num_owned_v ∧
     (update_host s).1.dev.m_d_num_owned_e =
      (update_host
        { s with
          dev := { s.dev with
            m_num_patches := s.host.m_num_patches } }).1.dev.m_d_num_owned_e ∧
     (update_host s).1.dev.m_d_num_owned_f =
      (update_host
        { s with
          dev := { s.dev with
            m_num_patches := s.host.m_num_patches } }).1.dev.m_d_num_owned_f) := by
  constructor
  · have h1 : patch_count_error ≠ vertex_prefix_sum_error := by decide
    have h2 : patch_count_error ≠ edge_prefix_sum_error := by decide
    have h3 : patch_count_error ≠ face_prefix_sum_error := by decide
    show patch_count_error ∈ uh_errors s ↔ _
    unfold uh_errors
    split_ifs <;> simp_all
  · exact ⟨rfl, rfl, rfl, rfl, rfl, rfl, rfl⟩

/-- A device patch claiming five vertices, all owned and active. -/
def d_patch5 : DPatchInfo :=
  ⟨0, 5, 0, 0, fun _ => 0, fun _ => 0, fun _ => true, fun _ => true,
   fun _ => true, fun _ => true, fun _ => true, fun _ => true, fun _ => 0,
   [], [], []⟩

/-- The stale host mirror of that patch, still recording three vertices. -/
def h_patch3 : HostPatch :=
  ⟨3, 0, 0, 3, 0, 0, fun _ => 0, fun _ => 0, fun _ => true, fun _ => true,
   fun _ => true, fun _ => true, fun _ => true, fun _ => true, fun _ => 0,
   [], [], []⟩

/-- A state in which the device reports two patches while the host records
one: the patch-count check fires, and the single host patch is stale. -/
def s_mismatch : SysState where
  dev := ⟨2, 5, 0, 0, fun _ => d_patch5, fun _ => 0, fun _ => 0, fun _ => 0,
    fun _ => 0, fun _ => 0, fun _ => 0⟩
  host := ⟨1, 3, 0, 0, fun _ => h_patch3, fun _ => 0, fun _ => 0, fun _ => 0,
    fun _ => 0, fun _ => 0, fun _ => 0, fun _ => 0, fun _ => 0, fun _ => 0⟩

/-- C1 counterexample: in s_mismatch the patch counts differ and the error
is reported, yet update_host does not leave the host mirrors as they were —
the host patch's vertex count changes from 3 to 5, refuting the claim that
all remaining reconciliation work is aborted with the state left as before
the call. -/
theorem update_host_abort_refuted :
    s_mismatch.dev.m_num_patches ≠ s_mismatch.host.m_num_patches ∧
    (update_host s_mismatch).2 = [patch_count_error] ∧
    ((update_host s_mismatch).1.host.m_h_patches_info 0).num_vertices = 5 ∧
    (s_mismatch.host.m_h_patches_info 0).num_vertices = 3 := by
  exact ⟨by decide, by decide, by decide, by decide⟩

end rxmesh
